import Mathlib

/-!
Shallow embedding of the synthetic chat-feed engine of
`transcription_server.py`, together with the durable-file read paths of
`server.py` and `overlay_server.py`.

Conventions of the embedding:
* Python wall-clock times and delays are rationals (`ℚ`).
* Every call to the random generator is an explicit parameter: a
  `random.choice` over a list becomes an arbitrary index reduced modulo the
  list length, `random.random() < p` branches become `Bool` parameters, and
  `random.uniform`/`random.randint` draws become explicit numbers.
* Python string slicing (`name[:20]`, `user[:64]`) is `List.take` on the
  string's character list, which matches Python's code-point slicing.
* Fallible operations return `Option`/`Except`; a Python exception escaping
  a modelled computation is the `none`/`error` case.
-/

/-- ChatEntry: one element of the `chat_messages` list, the dict
`{username, message, timestamp}` appended by every write path of
`transcription_server.py`. -/
structure ChatEntry where
  username : String
  message : String
  timestamp : String
deriving DecidableEq, Repr

/-- LatestResp: the `latest_response` global dict of `transcription_server.py`
(fields `text`, `transcript`, `timestamp`, `user`). -/
structure LatestResp where
  text : String
  transcript : String
  timestamp : String
  user : String
deriving DecidableEq, Repr

/-- ServerState: the module-level mutable state of `transcription_server.py`:
`latest_response`, `chat_messages`, the durable `chat_messages.json` contents
(`chat_file`), `last_chat_time`, `chat_timer_active`, and the
`_recent_usernames` ring buffer. -/
structure ServerState where
  latest_response : LatestResp
  chat_messages : List ChatEntry
  chat_file : List ChatEntry
  last_chat_time : ℚ
  chat_timer_active : Bool
  recent : List String
deriving DecidableEq, Repr

/-- lastK: Python's `l[-k:]` slice, the most recent `k` elements of a list. -/
def lastK (k : Nat) (l : List α) : List α :=
  l.drop (l.length - k)

/-- choose: `random.choice(l)` with the random draw supplied as an arbitrary
index `i`, reduced modulo the list length. -/
def choose (l : List String) (i : Nat) : String :=
  l.getD (i % l.length) ""

/-- The `_ADJECTIVES` list of `transcription_server.py`. -/
def _ADJECTIVES : List String :=
  ["Swift", "Lucky", "Sneaky", "Crimson", "Pixel", "Electric", "Mellow", "Hyper",
   "Cosmic", "Silent", "Dynamic", "Frosty", "Turbo", "Solar", "Neon", "Quantum",
   "Shadow", "Blazing", "Crystal", "Thunder", "Azure", "Golden", "Silver", "Steel"]

/-- The `_NOUNS` list of `transcription_server.py`. -/
def _NOUNS : List String :=
  ["Comet", "Falcon", "Drift", "Pixel", "Nimbus", "Vortex", "Spectre", "Ranger",
   "Echo", "Glitch", "Nova", "Phantom", "Circuit", "Rider", "Pilot", "Blaze",
   "Wolf", "Raven", "Tiger", "Dragon", "Phoenix", "Storm", "Star", "Moon"]

/-- NameDraw: the random draws consumed by one iteration of the retry loop in
`generate_username`: the adjective and noun choices, the coin for a numeric
end (`random.random() < 0.9`) together with the `randint(1, 9999)` value, the
coin for the `xX`/`Xx` decoration (`< 0.1`), the coin for a trailing
underscore (`< 0.25`), and the coin for the separator (`< 0.3`). -/
structure NameDraw where
  adjIdx : Nat
  nounIdx : Nat
  useNumber : Bool
  num : Nat
  useStyleP : Bool
  useUnderscoreS : Bool
  useSep : Bool

/-- composeName: the body of one iteration of `generate_username`'s loop:
`f"{style_prefix}{adj}{sep}{noun}{style_suffix}{number}"` trimmed by
`name[:20]`. -/
def composeName (dr : NameDraw) : String :=
  let adj := _ADJECTIVES.getD (dr.adjIdx % _ADJECTIVES.length) ""
  let noun := _NOUNS.getD (dr.nounIdx % _NOUNS.length) ""
  let number := if dr.useNumber then Nat.repr (1 + dr.num % 9999) else ""
  let styleP := if dr.useStyleP then "xX" else ""
  let styleS := if dr.useStyleP then "Xx" else if dr.useUnderscoreS then "_" else ""
  let sep := if dr.useSep && !(styleS = "_") then "_" else ""
  String.mk ((styleP ++ adj ++ sep ++ noun ++ styleS ++ number).data.take 20)

/-- pushRecent: `_recent_usernames.append(name)` on the `deque(maxlen=200)`. -/
def pushRecent (r : List String) (n : String) : List String :=
  lastK 200 (r ++ [n])

/-- generate_username of `transcription_server.py`: up to five composition
attempts (the `for _ in range(5)` loop, its draws given as the list `ds`),
returning the first name not in the recent-usernames buffer, else the
`f"Viewer{random.randint(1000,9999)}"` fallback (its draw given as `fb`,
reduced into the `randint` range). Returns the name and the updated buffer. -/
def generate_username : List NameDraw → Nat → List String → String × List String
  | [], fb, r =>
    let name := "Viewer" ++ Nat.repr (1000 + fb % 9000)
    (name, pushRecent r name)
  | dr :: ds, fb, r =>
    let name := composeName dr
    if name ∈ r then generate_username ds fb r
    else (name, pushRecent r name)

/-- pyStrip: Python's `str.strip()` — drop leading and trailing whitespace,
expressed on the character list. -/
def pyStrip (s : String) : String :=
  String.mk (((s.data.dropWhile Char.isWhitespace).reverse.dropWhile Char.isWhitespace).reverse)

/-- post_username: the username computation of `post_message` in
`overlay_server.py`: `str(body.get("user", "PC")).strip()[:64] or "PC"`. -/
def post_username (user : String) : String :=
  if String.mk ((pyStrip user).data.take 64) = "" then "PC"
  else String.mk ((pyStrip user).data.take 64)

/-- pyLower: Python's `str.lower()`, expressed as a character-wise map on
the character list. -/
def pyLower (s : String) : String :=
  String.mk (s.data.map Char.toLower)

/-- substrIn: Python's substring test `w in s`, expressed on character
lists: `w` occurs contiguously inside `s`. -/
def substrIn (w s : String) : Bool :=
  (List.range (s.data.length + 1)).any fun i => w.data.isPrefixOf (s.data.drop i)

/-- containsAny: `any(word in s for word in ws)`. -/
def containsAny (s : String) (ws : List String) : Bool :=
  ws.any fun w => substrIn w s

/-- The `troll_responses` list of `get_troll_response`. -/
def troll_responses : List String :=
  ["lol", "haha", "nice", "cool", "wow", "damn", "yep", "nah", "true", "same",
   "real", "facts", "totally", "exactly", "for sure", "no way", "seriously",
   "huh", "what", "why", "how", "when", "where", "okay", "alright", "sure",
   "maybe", "probably", "definitely", "possibly", "honestly", "actually",
   "basically", "literally", "obviously", "clearly", "apparently", "hopefully",
   "finally", "anyway", "whatever", "nevermind", "forget it", "my bad",
   "sorry 😅", "thanks 🙏", "welcome 👋", "good luck 🍀", "take care 💜",
   "see ya 👋", "later ✌️", "bye 👋"]

/-- Themed replies of `get_troll_response` for money-related transcripts. -/
def money_replies : List String :=
  ["nice 💰", "cool 💵", "wow 🤑", "damn 💸", "lucky 🍀", "sweet 💎"]

/-- Themed replies of `get_troll_response` for game-related transcripts. -/
def game_replies : List String :=
  ["nice game 🎮", "good one 👏", "gg 🎯", "well played 🏆", "unlucky 😔",
   "better luck next time 🍀"]

/-- Themed replies of `get_troll_response` for stream-related transcripts. -/
def stream_replies : List String :=
  ["hey chat 👋", "whats up 🤙", "love this stream ❤️", "good content 👏",
   "keep it up 💪"]

/-- Themed replies of `get_troll_response` for channel-related transcripts. -/
def channel_replies : List String :=
  ["first 🥇", "early 🌅", "nice upload 📺", "been waiting ⏰", "good stuff 👌"]

/-- get_troll_response of `transcription_server.py`: keyword-themed canned
reply when the lowercased transcript matches a keyword group, else a pick
from the general `troll_responses` list. The random pick is the index `i`. -/
def get_troll_response (transcript : String) (i : Nat) : String :=
  let tl := pyLower transcript
  if containsAny tl ["money", "rich", "cash", "paid"] then choose money_replies i
  else if containsAny tl ["game", "play", "win", "lose"] then choose game_replies i
  else if containsAny tl ["chat", "viewers", "stream"] then choose stream_replies i
  else if containsAny tl ["new", "channel", "upload"] then choose channel_replies i
  else choose troll_responses i

/-- Business-themed replies of `get_context_acronym`. -/
def business_responses : List String :=
  ["makes sense", "good point", "smart move", "solid plan", "fair enough", "i get it"]

/-- Tech-themed replies of `get_context_acronym`. -/
def tech_responses : List String :=
  ["nice work", "looks good", "cool tech", "interesting", "pretty neat", "solid build"]

/-- Gaming-themed replies of `get_context_acronym`. -/
def gaming_responses : List String :=
  ["nice play", "good game", "well done", "not bad", "decent", "smooth"]

/-- Social-themed replies of `get_context_acronym`. -/
def social_responses : List String :=
  ["totally", "same here", "i feel you", "no doubt", "for sure", "exactly"]

/-- General replies of `get_context_acronym`. -/
def general_responses : List String :=
  ["true that", "makes sense", "good call", "fair point", "sounds right", "i agree"]

/-- get_context_acronym of `transcription_server.py`: keyword-bucketed canned
phrase (business/tech/gaming/social/general). The random pick is `i`. -/
def get_context_acronym (transcript : String) (i : Nat) : String :=
  let tl := pyLower transcript
  if containsAny tl ["business", "money", "work", "company", "startup"] then
    choose business_responses i
  else if containsAny tl ["tech", "code", "app", "software", "computer", "program"] then
    choose tech_responses i
  else if containsAny tl ["game", "play", "level", "character", "battle", "fight"] then
    choose gaming_responses i
  else if containsAny tl ["social", "friend", "party", "fun", "hang", "meet"] then
    choose social_responses i
  else
    choose general_responses i

/-- The six-entry canned fallback of `generate_response`, used when the
chat-completion call raises. -/
def fallback_responses : List String :=
  ["yeah totally", "that's wild", "lol same", "fr though", "nah man", "true that"]

/-- generate_response of `transcription_server.py`. The chat-completion
collaborator is the `oracle` parameter: `some s` is a successful completion
with content `s` (the code returns `s.strip()`, modelled by `pyStrip`), and
`none` is a raised exception, which the code catches, answering with a random
pick (index `fb`) from `fallback_responses`. An empty transcript returns the
empty string before any collaborator call. -/
def generate_response (transcript : String) (oracle : Option String) (fb : Nat) : String :=
  if transcript = "" then ""
  else
    match oracle with
    | some s => pyStrip s
    | none => choose fallback_responses fb

/-- get_chat_response of `transcription_server.py`: with probability 0.15
(the Bool `casual`, modelling `random.random() < 0.15`) a troll/casual reply,
otherwise the collaborator-backed `generate_response`. -/
def get_chat_response (transcript : String) (casual : Bool) (i : Nat)
    (oracle : Option String) (fb : Nat) : String :=
  if casual then get_troll_response transcript i
  else generate_response transcript oracle fb

/-- Pending: one delayed append task spawned by
`schedule_realistic_chat_sequence` via `add_message_with_delay(msg,
generate_username(), delay)`: it fires `delay` seconds later. -/
structure Pending where
  message : String
  username : String
  delay : ℚ
deriving DecidableEq, Repr

/-- SeqResult: the observable outcome of one
`schedule_realistic_chat_sequence` call: the updated server state, the
delayed-append tasks it spawned, and the delay of the `reset_timer` thread
(`max(selected delays) + 5`); `none` when the call was rejected and spawned
no reset thread, and also when the `max()` computation raises on an empty
selection, in which case no reset ever runs. -/
structure SeqResult where
  state : ServerState
  pending : List Pending
  reset : Option ℚ
deriving DecidableEq, Repr

/-- follow_up_base: the fixed 16-entry candidate pool of
`schedule_realistic_chat_sequence`, each message paired with its
`random.uniform` delay draw, supplied as `d 0 .. d 15`. -/
def follow_up_base (d : Nat → ℚ) : List (String × ℚ) :=
  [("true ✅", d 0), ("same 💯", d 1), ("real 💯", d 2), ("facts 📝", d 3),
   ("yep 👍", d 4), ("totally 💯", d 5), ("lol 😂", d 6), ("yeah man 🙌", d 7),
   ("exactly 💯", d 8), ("100% 💯", d 9), ("🔥", d 10), ("💯", d 11),
   ("😂", d 12), ("👏", d 13), ("💀", d 14), ("✨", d 15)]

/-- follow_up_messages: the candidate pool after the optional context
acronym is appended (`if context_acronym: follow_up_messages.append(...)`),
with the acronym's own delay draw `d 16`. -/
def follow_up_messages (transcript : String) (ctxIdx : Nat) (d : Nat → ℚ) :
    List (String × ℚ) :=
  let ctx := if transcript = "" then "" else get_context_acronym transcript ctxIdx
  follow_up_base d ++ (if ctx = "" then [] else [(ctx, d 16)])

/-- SampleOk: the contract of `random.sample(pool, min(num, len(pool)))`: the
selection has exactly `min num pool.length` elements, all drawn from the
pool. -/
def SampleOk (sel pool : List (String × ℚ)) (num : Nat) : Prop :=
  sel.length = min num pool.length ∧ ∀ x ∈ sel, x ∈ pool

/-- resetDelay: the sleep length of the `reset_timer` thread,
`max(delay for _, delay in selected_messages) + 5`. Python's `max` raises
`ValueError` on an empty sequence — the `none` case — and then the thread
dies without ever clearing `chat_timer_active`. -/
def resetDelay (sel : List (String × ℚ)) : Option ℚ :=
  ((sel.map Prod.snd).max?).map fun m => m + 5

/-- schedule_realistic_chat_sequence of `transcription_server.py`. When
`chat_timer_active` is set or fewer than 15 seconds have passed since
`last_chat_time`, the call returns at once: no state change, no delayed
tasks, no reset thread. Otherwise it sets the flag, records the trigger
time, appends the initial message synchronously (with no truncation on this
path), and spawns one delayed append per sampled follow-up (`sel`, the
result of the `random.sample` call, with `followUsers i` the username
generated for the `i`-th one) plus the reset thread. -/
def schedule_realistic_chat_sequence (now : ℚ) (initial_message initial_username ts : String)
    (sel : List (String × ℚ)) (followUsers : Nat → String) (s : ServerState) : SeqResult :=
  if s.chat_timer_active = true ∨ now - s.last_chat_time < 15 then
    ⟨s, [], none⟩
  else
    let s1 : ServerState :=
      { s with chat_timer_active := true
               last_chat_time := now
               chat_messages := s.chat_messages ++ [⟨initial_username, initial_message, ts⟩] }
    ⟨s1, sel.enum.map fun p => ⟨p.2.1, followUsers p.1, p.2.2⟩, resetDelay sel⟩

/-- delayed_add: the body of `delayed_add` inside `add_message_with_delay`,
as it executes once its sleep elapses: append the entry, then trim with
`chat_messages[-20:]`. -/
def delayed_add (message username ts : String) (s : ServerState) : ServerState :=
  { s with chat_messages := lastK 20 (s.chat_messages ++ [⟨username, message, ts⟩]) }

/-- reset_step: the tail of the `reset_timer` thread after its sleep:
`chat_timer_active = False`. -/
def reset_step (s : ServerState) : ServerState :=
  { s with chat_timer_active := false }

/-- The `ambient_messages` list of `start_ambient_chat` (including the
mojibake replacement characters present in the source). -/
def ambient_messages : List String :=
  ["hey", "whats up", "yo", "nice", "cool", "lol", "same", "true", "yeah", "nah",
   "haha", "omg", "wow", "damn", "nice one", "good stuff", "love it", "awesome",
   "sweet", "dope", "sick", "tight", "solid", "clean", "smooth", "fire", "lit",
   "wild", "crazy", "insane", "mad", "hard", "tough", "rough", "soft", "chill",
   "relax", "calm", "peace", "quiet", "loud", "big", "small", "fast", "slow",
   "�", "💯", "🔥", "👏", "💀", "�", "�", "🤔", "�", "✨", "�", "�", "❤️", "�"]

/-- ambient_step: one post-sleep iteration of the `ambient_loop` of
`start_ambient_chat`: only when the sequencer is idle and fewer than 10
messages are stored, append one random ambient message (index `i`) under a
fresh username, then trim with `chat_messages[-20:]`. -/
def ambient_step (i : Nat) (username ts : String) (s : ServerState) : ServerState :=
  if s.chat_timer_active = false ∧ s.chat_messages.length < 10 then
    { s with chat_messages :=
        lastK 20 (s.chat_messages ++ [⟨username, choose ambient_messages i, ts⟩]) }
  else s

/-- clear_chat of `transcription_server.py` (successful path): empty the
in-memory list and write `[]` to `chat_messages.json`. -/
def clear_chat (s : ServerState) : ServerState :=
  { s with chat_messages := [], chat_file := [] }

/-- TestTextOut: the JSON body returned by a successful `/api/test_text`
call. -/
structure TestTextOut where
  status : String
  input : String
  response : String
deriving DecidableEq, Repr

/-- test_text_input: the `/api/test_text` handler. An empty `text` yields the
400 error response with no state change; otherwise the handler computes
`get_chat_response`, overwrites `latest_response` (with a fresh username,
which also advances the recent-usernames buffer), and returns the success
body. It never touches `chat_messages`, the durable file, or the sequencer
flags. -/
def test_text_input (text : String) (casual : Bool) (i : Nat) (oracle : Option String)
    (fb : Nat) (ds : List NameDraw) (ufb : Nat) (nowIso : String) (s : ServerState) :
    Except String TestTextOut × ServerState :=
  if text = "" then
    (Except.error "No text provided", s)
  else
    let ai := get_chat_response text casual i oracle fb
    let gu := generate_username ds ufb s.recent
    (Except.ok ⟨"success", text, ai⟩,
     { s with latest_response := ⟨ai, text, nowIso, gu.1⟩, recent := gu.2 })

/-- JVal: the shape of a parsed durable-file payload as far as the read
paths inspect it: either a JSON array of chat entries, or some other JSON
value (`isinstance(msgs, list)` fails). -/
inductive JVal where
  | list (es : List ChatEntry)
  | nonList
deriving DecidableEq, Repr

/-- DurableFile: the condition of the durable chat file when a read path
opens it: absent, unreadable-or-unparsable (open or `json.load` raises), or
successfully parsed JSON. -/
inductive DurableFile where
  | missing
  | unreadable
  | parsed (v : JVal)
deriving DecidableEq, Repr

/-- ReadResult: what `get_chat` of `server.py` delivers to its HTTP caller:
a message list, or an HTTPException with a status code. -/
inductive ReadResult where
  | ok (msgs : List ChatEntry)
  | httpError (code : Nat)
deriving DecidableEq, Repr

/-- get_chat of `server.py`: missing file → `[]`; parse succeeded but not a
list → `[]`; open/parse raised → the `except` clause re-raises as
`HTTPException(status_code=500)`; otherwise the parsed list. -/
def get_chat : DurableFile → ReadResult
  | DurableFile.missing => ReadResult.ok []
  | DurableFile.unreadable => ReadResult.httpError 500
  | DurableFile.parsed (JVal.list es) => ReadResult.ok es
  | DurableFile.parsed JVal.nonList => ReadResult.ok []

/-- read_messages: `_read_messages` of `overlay_server.py`: any exception or
a missing file yields `[]`, but a successfully parsed payload is returned
as-is, without checking that it is a list. -/
def read_messages : DurableFile → JVal
  | DurableFile.missing => JVal.list []
  | DurableFile.unreadable => JVal.list []
  | DurableFile.parsed v => v

/-- idleState: a concrete quiescent server state used to instantiate the
theorems: empty log and file, idle sequencer, trigger clock at zero. -/
def idleState : ServerState :=
  { latest_response := ⟨"Waiting for audio...", "", "t0", "System"⟩
    chat_messages := []
    chat_file := []
    last_chat_time := 0
    chat_timer_active := false
    recent := [] }

/-- sampleSel: a concrete one-element follow-up selection used to
instantiate the theorems. -/
def sampleSel : List (String × ℚ) :=
  [("true ✅", 3)]

/-- fullLog : a log already holding 20 entries, the richer server path's
retention bound. -/
def fullLog : List ChatEntry :=
  List.replicate 20 ⟨"Viewer1000", "hey", "t1"⟩
/-- mk_length: the length of a string built from a character list. -/
theorem mk_length (l : List Char) : (String.mk l).length = l.length := rfl

/-- viewer_fallback_length: the `Viewer<4 digits>` fallback name has 10
characters. -/
theorem viewer_fallback_length (fb : Nat) :
    ("Viewer" ++ Nat.repr (1000 + fb % 9000)).length ≤ 10 := by
  have h9 : fb % 9000 < 9000 := Nat.mod_lt _ (by norm_num)
  have h4 : (Nat.repr (1000 + fb % 9000)).length ≤ 4 := by
    apply Nat.repr_length _ 4 (by norm_num)
    omega
  have h6 : ("Viewer" : String).length = 6 := rfl
  rw [String.length_append, h6]
  omega

/-- composeName_length: one loop iteration of `generate_username` produces a
name of at most 20 characters, thanks to the `name[:20]` slice. -/
theorem composeName_length (dr : NameDraw) : (composeName dr).length ≤ 20 := by
  simp [composeName, mk_length]

/-- generate_username_length: every username produced by `generate_username`
(either a truncated composed name or the `Viewer<4 digits>` fallback) has at
most 20 characters. -/
theorem generate_username_length (ds : List NameDraw) (fb : Nat) (r : List String) :
    (generate_username ds fb r).1.length ≤ 20 := by
  induction ds generalizing r with
  | nil =>
    have := viewer_fallback_length fb
    simp only [generate_username]
    omega
  | cons dr ds ih =>
    simp only [generate_username]
    split
    · exact ih _
    · exact composeName_length dr

/-- choose_mem: a `random.choice` pick from a non-empty list is an element
of that list. -/
theorem choose_mem (l : List String) (h : l ≠ []) (i : Nat) : choose l i ∈ l := by
  have hl : 0 < l.length := List.length_pos.mpr h
  have hm : i % l.length < l.length := Nat.mod_lt _ hl
  simp only [choose, List.getD_eq_getElem?_getD, List.getElem?_eq_getElem hm,
    Option.getD_some]
  exact List.getElem_mem hm

/-- choose_ne_empty: a `random.choice` pick from a non-empty list of
non-empty strings is non-empty. -/
theorem choose_ne_empty (l : List String) (h : l ≠ []) (h2 : ∀ x ∈ l, x ≠ "")
    (i : Nat) : choose l i ≠ "" :=
  h2 _ (choose_mem l h i)

/-- lastK_length_le: the `l[-k:]` slice has at most `k` elements. -/
theorem lastK_length_le (k : Nat) (l : List α) : (lastK k l).length ≤ k := by
  simp [lastK]
  omega

/-- post_username_length: a username stored by `post_message` of
`overlay_server.py` has at most 64 characters. -/
theorem post_username_length (u : String) : (post_username u).length ≤ 64 := by
  unfold post_username
  split
  · decide
  · simp [mk_length]

/-- C8 (counterexample): an HTTP message post whose `user` field has 30
characters is stored with a 30-character username, exceeding the claimed
20-character bound. -/
theorem post_username_can_exceed_twenty :
    20 < (post_username (String.mk (List.replicate 30 'a'))).length := by decide

/-- C8 (amended): every username produced by `generate_username` — the
source of the initial, follow-up and ambient usernames — has at most 20
characters, but a username taken from an HTTP message post is only truncated
to 64 characters. -/
theorem username_length_bounds :
    (∀ ds fb r, (generate_username ds fb r).1.length ≤ 20)
    ∧ (∀ u, (post_username u).length ≤ 64) :=
  ⟨generate_username_length, post_username_length⟩

/-- C6 (counterexample): when the durable chat file holds corrupt (non-JSON)
or unreadable data, `get_chat` of `server.py` does not return the empty
list: it surfaces an HTTP 500 error to the caller. -/
theorem get_chat_surfaces_500 :
    get_chat DurableFile.unreadable = ReadResult.httpError 500 := rfl

/-- C6 (amended): `get_chat` of `server.py` returns the empty list for a
missing file or for parsed non-list data, but surfaces an HTTP 500 error
when the file is unreadable or holds non-JSON data; `_read_messages` of
`overlay_server.py` returns the empty list for a missing, unreadable or
non-JSON file, but returns parsed non-list data as-is. -/
theorem durable_read_recovery :
    get_chat DurableFile.missing = ReadResult.ok []
    ∧ get_chat (DurableFile.parsed JVal.nonList) = ReadResult.ok []
    ∧ get_chat DurableFile.unreadable = ReadResult.httpError 500
    ∧ (∀ es, get_chat (DurableFile.parsed (JVal.list es)) = ReadResult.ok es)
    ∧ read_messages DurableFile.missing = JVal.list []
    ∧ read_messages DurableFile.unreadable = JVal.list []
    ∧ (∀ v, read_messages (DurableFile.parsed v) = v) :=
  ⟨rfl, rfl, rfl, fun _ => rfl, rfl, rfl, fun _ => rfl⟩

/-- C7: on an accepted trigger whose sampled follow-up selection is empty,
the sequencer still becomes Active, but the reset computation
`max(delay for _, delay in selected_messages) + 5` has no value — Python's
`max` raises `ValueError` on the empty sequence, the reset thread dies, and
`chat_timer_active` is never cleared, instead of the claimed zero-length
wait returning the sequencer to Idle. -/
theorem reset_on_empty_selection_fails :
    (schedule_realistic_chat_sequence 20 "hi" "Bob" "t2" [] (fun _ => "U")
        idleState).state.chat_timer_active = true
    ∧ (schedule_realistic_chat_sequence 20 "hi" "Bob" "t2" [] (fun _ => "U")
        idleState).reset = none := by
  constructor <;> norm_num [schedule_realistic_chat_sequence, idleState, resetDelay]

/-- get_troll_response_ne_empty: every casual/troll reply is a non-empty
canned phrase, whatever the transcript (including the empty one). -/
theorem get_troll_response_ne_empty (t : String) (i : Nat) :
    get_troll_response t i ≠ "" := by
  simp only [get_troll_response]
  split_ifs
  · exact choose_ne_empty _ (by decide) (by decide) i
  · exact choose_ne_empty _ (by decide) (by decide) i
  · exact choose_ne_empty _ (by decide) (by decide) i
  · exact choose_ne_empty _ (by decide) (by decide) i
  · exact choose_ne_empty _ (by decide) (by decide) i

/-- C1: a `schedule_realistic_chat_sequence` call arriving while the
previous accepted sequence is still Active is a silent no-op, and so is one
arriving after the reset but less than 15 seconds after the accepted
trigger: no state change, no appended entry, no scheduled follow-ups, no
error. -/
theorem schedule_second_call_noop
    (s : ServerState) (now1 now2 : ℚ) (m1 u1 t1 m2 u2 t2 : String)
    (sel1 sel2 : List (String × ℚ)) (f1 f2 : Nat → String)
    (hidle : s.chat_timer_active = false) (hcool : 15 ≤ now1 - s.last_chat_time) :
    schedule_realistic_chat_sequence now2 m2 u2 t2 sel2 f2
        (schedule_realistic_chat_sequence now1 m1 u1 t1 sel1 f1 s).state
      = ⟨(schedule_realistic_chat_sequence now1 m1 u1 t1 sel1 f1 s).state, [], none⟩
    ∧ (now2 - now1 < 15 →
      schedule_realistic_chat_sequence now2 m2 u2 t2 sel2 f2
          (reset_step (schedule_realistic_chat_sequence now1 m1 u1 t1 sel1 f1 s).state)
        = ⟨reset_step (schedule_realistic_chat_sequence now1 m1 u1 t1 sel1 f1 s).state,
           [], none⟩) := by
  have hc1 : ¬(s.chat_timer_active = true ∨ now1 - s.last_chat_time < 15) := by
    simp [hidle, not_lt, hcool]
  have e1 : (schedule_realistic_chat_sequence now1 m1 u1 t1 sel1 f1 s).state =
      { s with chat_timer_active := true
               last_chat_time := now1
               chat_messages := s.chat_messages ++ [⟨u1, m1, t1⟩] } := by
    simp [schedule_realistic_chat_sequence, hc1]
  constructor
  · rw [e1]
    simp [schedule_realistic_chat_sequence]
  · intro h2
    rw [e1]
    simp [schedule_realistic_chat_sequence, reset_step, h2]

/-- C1 (witness): from the idle state with trigger clock 0, a first call at
t=20 is accepted; a second call at t=30 is a no-op both while the sequence
is Active and right after the reset, 10 seconds after the trigger. -/
theorem schedule_second_call_noop_witness :
    ((30:ℚ) - 20 < 15)
    ∧ schedule_realistic_chat_sequence 30 "same 💯" "Ann" "t3" sampleSel (fun _ => "V")
        (schedule_realistic_chat_sequence 20 "hi" "Bob" "t2" sampleSel (fun _ => "U")
          idleState).state
      = ⟨(schedule_realistic_chat_sequence 20 "hi" "Bob" "t2" sampleSel (fun _ => "U")
          idleState).state, [], none⟩
    ∧ schedule_realistic_chat_sequence 30 "same 💯" "Ann" "t3" sampleSel (fun _ => "V")
        (reset_step (schedule_realistic_chat_sequence 20 "hi" "Bob" "t2" sampleSel
          (fun _ => "U") idleState).state)
      = ⟨reset_step (schedule_realistic_chat_sequence 20 "hi" "Bob" "t2" sampleSel
          (fun _ => "U") idleState).state, [], none⟩ :=
  ⟨by norm_num,
   (schedule_second_call_noop idleState 20 30 "hi" "Bob" "t2" "same 💯" "Ann" "t3"
     sampleSel sampleSel (fun _ => "U") (fun _ => "V") rfl
     (by norm_num [idleState])).1,
   (schedule_second_call_noop idleState 20 30 "hi" "Bob" "t2" "same 💯" "Ann" "t3"
     sampleSel sampleSel (fun _ => "U") (fun _ => "V") rfl
     (by norm_num [idleState])).2 (by norm_num)⟩

/-- C2 (counterexample): an accepted `schedule_realistic_chat_sequence` call
appends its initial message to the in-memory log but leaves the durable file
untouched, so right after this mutation the file does not hold the current
log. -/
theorem schedule_append_leaves_file_stale :
    (schedule_realistic_chat_sequence 20 "hi" "Bob" "t2" sampleSel (fun _ => "U")
        idleState).state.chat_messages = [⟨"Bob", "hi", "t2"⟩]
    ∧ (schedule_realistic_chat_sequence 20 "hi" "Bob" "t2" sampleSel (fun _ => "U")
        idleState).state.chat_file = []
    ∧ (schedule_realistic_chat_sequence 20 "hi" "Bob" "t2" sampleSel (fun _ => "U")
        idleState).state.chat_file
      ≠ (schedule_realistic_chat_sequence 20 "hi" "Bob" "t2" sampleSel (fun _ => "U")
        idleState).state.chat_messages := by
  norm_num [schedule_realistic_chat_sequence, idleState]

/-- C2 (amended): no append path of `transcription_server.py` — the
synchronous initial append of an accepted schedule call, the delayed
follow-up appends, or the ambient appends — writes the durable chat file;
only the clear-chat operation rewrites it, with the empty list. -/
theorem mutations_do_not_write_durable_file :
    (∀ now m u t sel f s,
      (schedule_realistic_chat_sequence now m u t sel f s).state.chat_file = s.chat_file)
    ∧ (∀ m u t s, (delayed_add m u t s).chat_file = s.chat_file)
    ∧ (∀ i u t s, (ambient_step i u t s).chat_file = s.chat_file)
    ∧ (∀ s, (clear_chat s).chat_messages = [] ∧ (clear_chat s).chat_file = []) := by
  refine ⟨?_, ?_, ?_, ?_⟩
  · intro now m u t sel f s
    unfold schedule_realistic_chat_sequence
    split <;> rfl
  · intro m u t s; rfl
  · intro i u t s
    unfold ambient_step
    split <;> rfl
  · intro s; exact ⟨rfl, rfl⟩

/-- C3 (counterexample): with the log already holding 20 entries, the
synchronous initial append of an accepted schedule call does not truncate,
so the next read observes 21 entries — more than the claimed bound of 20. -/
theorem initial_append_exceeds_bound :
    20 < (schedule_realistic_chat_sequence 20 "hi" "Bob" "t2" sampleSel (fun _ => "U")
      { idleState with chat_messages := fullLog }).state.chat_messages.length := by
  norm_num [schedule_realistic_chat_sequence, idleState, fullLog]

/-- C3 (amended): the delayed follow-up appends and the ambient appends
truncate the log to the most recent 20 entries, but the synchronous initial
append of an accepted schedule call does not: it always grows the log by
exactly one entry, so a read immediately after it can see 21 entries. -/
theorem truncation_only_on_delayed_paths :
    (∀ m u t s, (delayed_add m u t s).chat_messages.length ≤ 20)
    ∧ (∀ i u t s, (ambient_step i u t s).chat_messages.length ≤ 20
        ∨ (ambient_step i u t s).chat_messages = s.chat_messages)
    ∧ (∀ now m u t sel f (s : ServerState), s.chat_timer_active = false →
        15 ≤ now - s.last_chat_time →
        (schedule_realistic_chat_sequence now m u t sel f s).state.chat_messages.length
          = s.chat_messages.length + 1) := by
  refine ⟨?_, ?_, ?_⟩
  · intro m u t s
    exact lastK_length_le _ _
  · intro i u t s
    unfold ambient_step
    split
    · left; exact lastK_length_le _ _
    · right; rfl
  · intro now m u t sel f s h1 h2
    have hc : ¬(s.chat_timer_active = true ∨ now - s.last_chat_time < 15) := by
      simp [h1, not_lt, h2]
    simp [schedule_realistic_chat_sequence, hc]

/-- C3 (witness): the truncation and growth facts instantiated at concrete
inputs: a delayed append and an ambient append stay within 20 entries, and
an accepted schedule call from the empty idle log grows it to one entry. -/
theorem truncation_only_on_delayed_paths_witness :
    (delayed_add "hey" "Ann" "t4" idleState).chat_messages.length ≤ 20
    ∧ ((ambient_step 0 "Cal" "t5" idleState).chat_messages.length ≤ 20
        ∨ (ambient_step 0 "Cal" "t5" idleState).chat_messages = idleState.chat_messages)
    ∧ idleState.chat_timer_active = false
    ∧ 15 ≤ (20:ℚ) - idleState.last_chat_time
    ∧ (schedule_realistic_chat_sequence 20 "hi" "Bob" "t2" sampleSel (fun _ => "U")
        idleState).state.chat_messages.length = idleState.chat_messages.length + 1 :=
  ⟨truncation_only_on_delayed_paths.1 "hey" "Ann" "t4" idleState,
   truncation_only_on_delayed_paths.2.1 0 "Cal" "t5" idleState,
   rfl, by norm_num [idleState],
   truncation_only_on_delayed_paths.2.2 20 "hi" "Bob" "t2" sampleSel (fun _ => "U")
     idleState rfl (by norm_num [idleState])⟩

/-- C4 (counterexample): on the empty transcript, the casual branch of the
reply selection (taken with probability 0.15) returns a non-empty canned
phrase, not the empty string. -/
theorem casual_reply_on_empty_transcript :
    get_chat_response "" true 0 none 0 ≠ "" := by decide

/-- C4 (amended): the collaborator-backed branch (`generate_response`)
returns the empty string on the empty transcript, and, when the collaborator
fails, a non-empty canned fallback on every non-empty transcript; but the
casual branch (`get_troll_response`) returns a non-empty canned phrase for
every transcript, the empty one included, so the overall selection returns
the empty string for the empty transcript only when the collaborator-backed
branch is taken. -/
theorem reply_emptiness :
    (∀ oracle fb, generate_response "" oracle fb = "")
    ∧ (∀ t i, get_troll_response t i ≠ "")
    ∧ (∀ t fb, t ≠ "" → generate_response t none fb ≠ "") := by
  refine ⟨fun oracle fb => rfl, get_troll_response_ne_empty, ?_⟩
  intro t fb ht
  unfold generate_response
  rw [if_neg ht]
  exact choose_ne_empty _ (by decide) (by decide) fb

/-- C4 (witness): the emptiness facts instantiated at concrete transcripts. -/
theorem reply_emptiness_witness :
    generate_response "" none 0 = ""
    ∧ get_troll_response "hello" 1 ≠ ""
    ∧ ("ok" ≠ "" ∧ generate_response "ok" none 2 ≠ "") :=
  ⟨reply_emptiness.1 none 0, reply_emptiness.2.1 "hello" 1,
   by decide, reply_emptiness.2.2 "ok" 2 (by decide)⟩

/-- C5 (counterexample): with the collaborator failing, a call that takes
the casual branch (probability 0.15) returns a canned phrase that is not in
the fixed 6-entry fallback list. -/
theorem casual_reply_outside_fallback :
    get_chat_response "hello" true 0 none 0 ∉ fallback_responses := by decide

/-- C5 (amended): when the chat-completion collaborator fails on a non-empty
transcript, the reply selection never propagates the failure (the embedding
is total): on the collaborator-backed branch the result is always one of the
fixed 6-entry fallback list, while on the casual branch (probability 0.15,
which never invokes the collaborator) it is a non-empty canned casual
phrase. -/
theorem collaborator_failure_contained (t : String) (casual : Bool) (i fb : Nat)
    (ht : t ≠ "") :
    (casual = false → get_chat_response t casual i none fb ∈ fallback_responses)
    ∧ (casual = true → get_chat_response t casual i none fb = get_troll_response t i
        ∧ get_troll_response t i ≠ "") := by
  constructor
  · intro hc
    subst hc
    simp only [get_chat_response, Bool.false_eq_true, if_false]
    unfold generate_response
    rw [if_neg ht]
    exact choose_mem _ (by decide) fb
  · intro hc
    subst hc
    exact ⟨by simp [get_chat_response], get_troll_response_ne_empty t i⟩

/-- C5 (witness): the containment facts at a concrete non-empty transcript:
the collaborator-backed branch lands in the 6-entry fallback list and the
casual branch produces the non-empty casual phrase. -/
theorem collaborator_failure_contained_witness :
    ("press play" ≠ "")
    ∧ get_chat_response "press play" false 0 none 1 ∈ fallback_responses
    ∧ (get_chat_response "press play" true 3 none 1 = get_troll_response "press play" 3
        ∧ get_troll_response "press play" 3 ≠ "") :=
  ⟨by decide,
   (collaborator_failure_contained "press play" false 0 1 (by decide)).1 rfl,
   (collaborator_failure_contained "press play" true 3 1 (by decide)).2 rfl⟩

/-- C10: a `/api/test_text` call with non-empty text overwrites
`latest_response` with the computed reply and returns the success body, but
leaves the chat message log, the durable file, and both sequencer fields
(`chat_timer_active`, `last_chat_time`) unchanged: it never invokes the
sequencer and never appends to the store. -/
theorem test_text_frame (text : String) (casual : Bool) (i : Nat)
    (oracle : Option String) (fb : Nat) (ds : List NameDraw) (ufb : Nat)
    (nowIso : String) (s : ServerState) (h : text ≠ "") :
    (test_text_input text casual i oracle fb ds ufb nowIso s).2.chat_messages
      = s.chat_messages
    ∧ (test_text_input text casual i oracle fb ds ufb nowIso s).2.chat_file
      = s.chat_file
    ∧ (test_text_input text casual i oracle fb ds ufb nowIso s).2.chat_timer_active
      = s.chat_timer_active
    ∧ (test_text_input text casual i oracle fb ds ufb nowIso s).2.last_chat_time
      = s.last_chat_time
    ∧ (test_text_input text casual i oracle fb ds ufb nowIso s).2.latest_response
      = ⟨get_chat_response text casual i oracle fb, text, nowIso,
         (generate_username ds ufb s.recent).1⟩
    ∧ (test_text_input text casual i oracle fb ds ufb nowIso s).1
      = Except.ok ⟨"success", text, get_chat_response text casual i oracle fb⟩ := by
  simp [test_text_input, h]

/-- C10 (witness): the frame facts of a `/api/test_text` call at a concrete
input, starting from the idle state. -/
theorem test_text_frame_witness :
    ("hi" ≠ "")
    ∧ ((test_text_input "hi" false 0 none 0 [] 0 "iso" idleState).2.chat_messages
        = idleState.chat_messages
      ∧ (test_text_input "hi" false 0 none 0 [] 0 "iso" idleState).2.chat_file
        = idleState.chat_file
      ∧ (test_text_input "hi" false 0 none 0 [] 0 "iso" idleState).2.chat_timer_active
        = idleState.chat_timer_active
      ∧ (test_text_input "hi" false 0 none 0 [] 0 "iso" idleState).2.last_chat_time
        = idleState.last_chat_time
      ∧ (test_text_input "hi" false 0 none 0 [] 0 "iso" idleState).2.latest_response
        = ⟨get_chat_response "hi" false 0 none 0, "hi", "iso",
           (generate_username [] 0 idleState.recent).1⟩
      ∧ (test_text_input "hi" false 0 none 0 [] 0 "iso" idleState).1
        = Except.ok ⟨"success", "hi", get_chat_response "hi" false 0 none 0⟩) :=
  ⟨by decide, test_text_frame "hi" false 0 none 0 [] 0 "iso" idleState (by decide)⟩
